import Mathlib

/-!
Shallow embedding of the competitive-analysis orchestration pipeline
(src/crew/crew.py, src/crew/main.py, the four agents under src/agents/,
src/database/models.py and src/database/supabase_client.py).

Modelling conventions:
- Python `str` is modelled as `List Char` (`Str`); slicing `[:n]` is `List.take n`.
- Python `float` score fields are modelled as `ℚ`.
- The completion service (LLM) and the search service are external
  collaborators: each stage takes their (already JSON-decoded) responses as
  environment parameters; `Except Str _` marks calls whose throw / parse
  failure is observable at the call site.  A response field that the source
  reads with `dict.get(key, default)` becomes a structure field with that
  default.
- The Result Store (Supabase) is an explicit `Store` value threaded through
  the pipeline.  `insert_*` is modelled as a successful append (the
  insert-failure path of the client returns None and drops the item; it is
  orthogonal to the claims settled here).  `get_*` queries model the
  PostgREST calls: filter, order (`created_at` desc = reverse insertion
  order; score/momentum desc = mergeSort), limit.
- Wall-clock fields (`execution_time`, timestamps) are not modelled.
-/

/-- Python strings as lists of characters. -/
abbrev Str := List Char

/-- Turn a Lean string literal into the `Str` model. -/
def str (s : String) : Str := s.data

/-- Python `str.strip()`: drop whitespace from both ends. -/
def Str.strip (s : Str) : Str :=
  ((s.dropWhile Char.isWhitespace).reverse.dropWhile Char.isWhitespace).reverse

/-- Python `str.lower()` as used on the CLI command word. -/
def Str.lower (s : Str) : Str := s.map Char.toLower

/-- Dates are abstracted to day numbers; `today - n` is the n-days-back cutoff. -/
abbrev Date := ℕ

/-- models.py `Priority` enum. -/
inductive Priority
  | low
  | medium
  | high
  | critical
  deriving DecidableEq, Repr

/-- models.py `Category` enum. -/
inductive Category
  | ai_research
  | product_launch
  | funding
  | acquisition
  | partnership
  | regulation
  | technology
  | market_trend
  deriving DecidableEq, Repr

/-- Python `Priority(value)`: the enum constructor raises `ValueError` on an
unrecognized string, modelled as `none`. -/
def Priority.parse (s : Str) : Option Priority :=
  if s = str "low" then some .low
  else if s = str "medium" then some .medium
  else if s = str "high" then some .high
  else if s = str "critical" then some .critical
  else none

/-- Value string of a `Priority`, as stored in the database rows. -/
def Priority.toStr : Priority → Str
  | .low => str "low"
  | .medium => str "medium"
  | .high => str "high"
  | .critical => str "critical"

/-- Python `Category(value)` with `ValueError` as `none`. -/
def Category.parse (s : Str) : Option Category :=
  if s = str "ai_research" then some .ai_research
  else if s = str "product_launch" then some .product_launch
  else if s = str "funding" then some .funding
  else if s = str "acquisition" then some .acquisition
  else if s = str "partnership" then some .partnership
  else if s = str "regulation" then some .regulation
  else if s = str "technology" then some .technology
  else if s = str "market_trend" then some .market_trend
  else none

/-- models.py `MarketFinding` (pydantic). The `id`/`created_at` columns the
database fills in are not modelled; row ordering carries creation order. -/
structure MarketFinding where
  date : Date
  category : Category
  title : Str
  summary : Str
  content : Str
  relevance_score : ℚ
  source_url : Option Str
  deriving DecidableEq, Repr

/-- models.py `CompetitorUpdate`. -/
structure CompetitorUpdate where
  company_name : Str
  update_type : Category
  description : Str
  impact_level : Priority
  source_url : Option Str
  detected_date : Date
  deriving DecidableEq, Repr

/-- models.py `Opportunity`. -/
structure Opportunity where
  title : Str
  description : Str
  market_gap : Str
  score : ℚ
  priority : Priority
  potential_revenue : Option Str
  implementation_complexity : Option Str
  time_to_market : Option Str
  deriving DecidableEq, Repr

/-- models.py `Trend`; `evidence` is an arbitrary JSON object, modelled as a
key-value list. -/
structure Trend where
  trend_name : Str
  category : Category
  momentum_score : ℚ
  evidence : List (Str × Str)
  first_detected : Date
  prediction : Str
  deriving DecidableEq, Repr

/-- models.py `AnalysisRun`. `key_insights` is `str(list)` in the source and
`recommendations` a list of recommendation objects; both are kept as the
underlying lists.  `execution_time_seconds` (wall clock) is not modelled. -/
structure AnalysisRun where
  run_date : Date
  findings_count : ℕ
  opportunities_identified : ℕ
  key_insights : List Str
  recommendations : List Str
  status : Str
  deriving DecidableEq, Repr

/-- The Result Store: one list per table, in insertion (`created_at`) order. -/
structure Store where
  market_findings : List MarketFinding := []
  competitor_updates : List CompetitorUpdate := []
  opportunities : List Opportunity := []
  trends : List Trend := []
  analysis_runs : List AnalysisRun := []
  deriving DecidableEq, Repr

/-- Stable descending insertion for `sortByDesc`. -/
def insertDesc {α : Type} (key : α → ℚ) (a : α) : List α → List α
  | [] => [a]
  | b :: t => if key b < key a then a :: b :: t else b :: insertDesc key a t

/-- Order a list descending by a rational key (PostgREST `order(col, desc)`;
the order among equal keys is unspecified there, a stable sort is one valid
model). -/
def sortByDesc {α : Type} (key : α → ℚ) (l : List α) : List α :=
  l.foldr (insertDesc key) []

/-- supabase_client.get_market_findings: optional `date >= start` filter,
newest first, limit.  (The optional category filter is never passed by the
pipeline code and is omitted.) -/
def get_market_findings (s : Store) (lim : ℕ) (start : Option Date) :
    List MarketFinding :=
  ((s.market_findings.filter fun f =>
      match start with
      | some d => decide (d ≤ f.date)
      | none => true).reverse).take lim

/-- supabase_client.get_competitor_updates: optional company filter, newest
first, limit. -/
def get_competitor_updates (s : Store) (company : Option Str) (lim : ℕ) :
    List CompetitorUpdate :=
  ((s.competitor_updates.filter fun u =>
      match company with
      | some n => u.company_name == n
      | none => true).reverse).take lim

/-- supabase_client.get_opportunities: optional `score >= min_score` filter,
score descending, limit. -/
def get_opportunities (s : Store) (min_score : Option ℚ) (lim : ℕ) :
    List Opportunity :=
  (sortByDesc (fun o => o.score) (s.opportunities.filter fun o =>
      match min_score with
      | some m => decide (m ≤ o.score)
      | none => true)).take lim

/-- supabase_client.get_trends: optional `momentum_score >= min_momentum`
filter, momentum descending, limit.  (The optional category filter is never
passed by the pipeline code and is omitted.) -/
def get_trends (s : Store) (min_momentum : Option ℚ) (lim : ℕ) : List Trend :=
  (sortByDesc (fun t => t.momentum_score) (s.trends.filter fun t =>
      match min_momentum with
      | some m => decide (m ≤ t.momentum_score)
      | none => true)).take lim

/-- Helper for get_latest_findings_by_category: bump the count of one
category in an association list, keeping first-seen order (a Python dict). -/
def bumpCategory (m : List (Category × ℕ)) (c : Category) : List (Category × ℕ) :=
  if m.any (fun p => p.1 == c) then
    m.map (fun p => if p.1 == c then (p.1, p.2 + 1) else p)
  else m ++ [(c, 1)]

/-- supabase_client.get_latest_findings_by_category: counts of findings of
the last 7 days, per category. -/
def get_latest_findings_by_category (today : Date) (s : Store) :
    List (Category × ℕ) :=
  (get_market_findings s 1000 (some (today - 7))).foldl
    (fun m f => bumpCategory m f.category) []

/-- Result shape of supabase_client.get_analysis_summary. -/
structure AnalysisSummary where
  period_days : ℕ
  start_date : Date
  market_findings : ℕ
  opportunities : ℕ
  trends : ℕ
  competitor_updates : ℕ
  high_value_opportunities : ℕ
  high_momentum_trends : ℕ
  critical_competitor_updates : ℕ
  category_breakdown : List (Category × ℕ)
  deriving DecidableEq, Repr

/-- supabase_client.get_analysis_summary: read-only aggregation over the four
record tables for the last `days` days. -/
def get_analysis_summary (today : Date) (days : ℕ) (s : Store) :
    AnalysisSummary :=
  let start := today - days
  let findings := get_market_findings s 1000 (some start)
  let opportunities := get_opportunities s none 1000
  let trends := get_trends s none 1000
  let updates := get_competitor_updates s none 1000
  { period_days := days
    start_date := start
    market_findings := findings.length
    opportunities := opportunities.length
    trends := trends.length
    competitor_updates := updates.length
    high_value_opportunities :=
      (opportunities.filter fun o => decide ((0.7 : ℚ) < o.score)).length
    high_momentum_trends :=
      (trends.filter fun t => decide ((0.7 : ℚ) < t.momentum_score)).length
    critical_competitor_updates :=
      (updates.filter fun u =>
        u.impact_level == .high || u.impact_level == .critical).length
    category_breakdown := get_latest_findings_by_category today s }

/-! ## Market Intelligence stage (src/agents/market_intelligence.py) -/

/-- One entry of the `findings` array of the market-stage completion
response; defaults are the `dict.get` defaults of the source. -/
structure FindingItem where
  category : Str := str "market_trend"
  title : Str := []
  summary : Str := []
  content : Str := []
  relevance_score : ℚ := 0
  source_url : Option Str := none
  deriving DecidableEq, Repr

/-- Parsed market-stage completion response
`(executive_summary, findings, key_insights, recommended_actions)`. -/
structure MarketAnalysis where
  executive_summary : Str := []
  findings : List FindingItem := []
  key_insights : List Str := []
  recommended_actions : List Str := []
  deriving DecidableEq, Repr

/-- Per-item construction of a `MarketFinding` from a response item:
`Category(...)` raises on an unknown category, title/summary are truncated
before construction, and pydantic validation rejects a `relevance_score`
outside [0, 1].  Any of these failures is caught by the per-item handler and
the item is skipped (`none`). -/
def mkMarketFinding (today : Date) (f : FindingItem) : Option MarketFinding :=
  match Category.parse f.category with
  | none => none
  | some cat =>
    if 0 ≤ f.relevance_score ∧ f.relevance_score ≤ 1 then
      some { date := today
             category := cat
             title := f.title.take 500
             summary := f.summary.take 2000
             content := f.content
             relevance_score := f.relevance_score
             source_url := f.source_url }
    else none

/-- The dict returned by `gather_market_intelligence` (its StageResult). -/
structure MarketStageResult where
  error : Option Str := none
  executive_summary : Str := []
  findings_count : ℕ := 0
  key_insights : List Str := []
  recommended_actions : List Str := []
  findings : List MarketFinding := []
  deriving DecidableEq, Repr

/-- gather_market_intelligence: the searches and the single completion call
sit inside one stage-level try/except, so a throw or JSON parse failure of
the completion response (`resp = .error`) hits the outer handler and yields
the error dict with `findings_count = 0`.  On success each response item is
validated and persisted individually; failing items are skipped. -/
def gather_market_intelligence (today : Date) (resp : Except Str MarketAnalysis)
    (s : Store) : MarketStageResult × Store :=
  match resp with
  | .error e => ({ error := some e, findings_count := 0 }, s)
  | .ok analysis =>
    let stored := analysis.findings.filterMap (mkMarketFinding today)
    ({ error := none
       executive_summary := analysis.executive_summary
       findings_count := stored.length
       key_insights := analysis.key_insights
       recommended_actions := analysis.recommended_actions
       findings := stored },
     { s with market_findings := s.market_findings ++ stored })

/-! ## Competitor Intelligence stage (src/agents/competitor_intelligence.py) -/

/-- One entry of the `updates` array of a per-competitor completion
response. -/
structure UpdateItem where
  update_type : Str := str "market_trend"
  description : Str := []
  impact_level : Str := str "medium"
  source_url : Option Str := none
  deriving DecidableEq, Repr

/-- Parsed per-competitor completion response. -/
structure CompAnalysis where
  competitor_summary : Str := []
  updates : List UpdateItem := []
  competitive_threat_level : Str := []
  deriving DecidableEq, Repr

/-- Parsed landscape-analysis completion response. -/
structure Landscape where
  landscape_summary : Str := []
  recommendations : List Str := []
  deriving DecidableEq, Repr

/-- Environment of the competitor stage: the configured competitor list and
its three external calls.  `search` is the serper call per competitor (NOT
wrapped in an inner handler: a throw escapes to the stage-level handler);
`analyze` and `landscape` are completion calls whose surrounding inner
try/except converts a throw or parse failure into a fallback value. -/
structure CompetitorEnv where
  competitors : List Str
  search : Str → Except Str Str
  analyze : Str → Str → Except Str CompAnalysis
  landscape : Except Str Landscape

/-- analyze_competitor_updates with its inner exception handler: a failed
completion call becomes the fallback dict with an empty `updates` list
(and no stage-level error). -/
def analyze_competitor_updates (env : CompetitorEnv) (name raw : Str) :
    CompAnalysis :=
  match env.analyze name raw with
  | .ok a => a
  | .error _ =>
    { competitor_summary := str "Error analyzing " ++ name
      updates := []
      competitive_threat_level := str "unknown" }

/-- analyze_competitive_landscape with its inner exception handler. -/
def analyze_competitive_landscape (env : CompetitorEnv) : Landscape :=
  match env.landscape with
  | .ok l => l
  | .error _ =>
    { landscape_summary := str "Error in landscape analysis"
      recommendations := [] }

/-- Per-item construction of a `CompetitorUpdate`: `Category(...)` and
`Priority(...)` raise on unknown strings, and pydantic rejects a
`company_name` longer than 255 characters (the source does not truncate it);
each failure is caught per item and the item skipped. -/
def mkCompetitorUpdate (today : Date) (name : Str) (u : UpdateItem) :
    Option CompetitorUpdate :=
  match Category.parse u.update_type, Priority.parse u.impact_level with
  | some t, some lvl =>
    if name.length ≤ 255 then
      some { company_name := name
             update_type := t
             description := u.description
             impact_level := lvl
             source_url := u.source_url
             detected_date := today }
    else none
  | _, _ => none

/-- Shape of an entry of the `critical_threats` list built by
`identify_critical_threats` from the stored update rows. -/
structure Threat where
  company : Str
  threat : Str
  impact : Priority
  date : Date
  deriving DecidableEq, Repr

/-- identify_critical_threats: project the stored updates with
`impact_level` in {high, critical} to threat dicts. -/
def identify_critical_threats (updates : List CompetitorUpdate) : List Threat :=
  updates.filterMap fun u =>
    if u.impact_level = .high ∨ u.impact_level = .critical then
      some { company := u.company_name
             threat := u.description
             impact := u.impact_level
             date := u.detected_date }
    else none

/-- Python-dict insertion for the `competitor_analyses` mapping: replace in
place if the key exists, else append. -/
def dictInsert {α : Type} (m : List (Str × α)) (k : Str) (v : α) :
    List (Str × α) :=
  if m.any (fun p => p.1 == k) then
    m.map (fun p => if p.1 == k then (k, v) else p)
  else m ++ [(k, v)]

/-- The dict returned by `monitor_competitors` (its StageResult). -/
structure CompetitorStageResult where
  error : Option Str := none
  competitors_monitored : ℕ := 0
  updates_found : ℕ := 0
  landscape_summary : Str := []
  competitor_analyses : List (Str × CompAnalysis) := []
  critical_threats : List Threat := []
  strategic_recommendations : List Str := []
  deriving DecidableEq, Repr

/-- The per-competitor loop of `monitor_competitors`: skip blank names,
search (a throw here escapes to the stage handler, keeping the store writes
made so far), analyze with the inner fallback, then validate and persist
each update item individually, accumulating stored rows and analyses. -/
def competitorLoop (today : Date) (env : CompetitorEnv) :
    List Str → Store → List CompetitorUpdate → List (Str × CompAnalysis) →
    Except (Str × Store) (List CompetitorUpdate × List (Str × CompAnalysis) × Store)
  | [], s, ups, ans => .ok (ups, ans, s)
  | c :: rest, s, ups, ans =>
    let name := c.strip
    if name = [] then competitorLoop today env rest s ups ans
    else
      match env.search name with
      | .error e => .error (e, s)
      | .ok raw =>
        let a := analyze_competitor_updates env name raw
        let stored := a.updates.filterMap (mkCompetitorUpdate today name)
        competitorLoop today env rest
          { s with competitor_updates := s.competitor_updates ++ stored }
          (ups ++ stored) (dictInsert ans name a)

/-- monitor_competitors: loop over competitors, then landscape analysis and
threat identification; the stage-level handler turns an escaped exception
(search failure) into the error dict with `updates_found = 0`. -/
def monitor_competitors (today : Date) (env : CompetitorEnv) (s : Store) :
    CompetitorStageResult × Store :=
  match competitorLoop today env env.competitors s [] [] with
  | .error (e, s1) => ({ error := some e, updates_found := 0 }, s1)
  | .ok (allUpdates, analyses, s1) =>
    let land := analyze_competitive_landscape env
    ({ error := none
       competitors_monitored := env.competitors.length
       updates_found := allUpdates.length
       landscape_summary := land.landscape_summary
       competitor_analyses := analyses
       critical_threats := identify_critical_threats allUpdates
       strategic_recommendations := land.recommendations }, s1)

/-! ## Trend Analysis stage (src/agents/trend_analysis.py) -/

/-- One entry of the `trends` array of the trend-stage completion response. -/
structure TrendItem where
  trend_name : Str := []
  category : Str := str "market_trend"
  momentum_score : ℚ := 0
  evidence : List (Str × Str) := []
  prediction : Str := []
  deriving DecidableEq, Repr

/-- Parsed trend-stage completion response. -/
structure TrendResp where
  summary : Str := []
  trends : List TrendItem := []
  predictions : List Str := []
  opportunity_indicators : List Str := []
  risk_factors : List Str := []
  deriving DecidableEq, Repr

/-- Environment of the trend stage.  `searches` is the block of four serper
calls of `search_current_trends` (not wrapped in an inner handler: a throw
escapes to the stage-level handler).  `patterns` is the completion call of
`analyze_trend_patterns`, a function of the data placed in its prompt
(historical findings, historical opportunities, current searches); its inner
try/except converts a throw or parse failure into a fallback value. -/
structure TrendEnv where
  searches : Except Str (List (Str × Str))
  patterns : List MarketFinding → List Opportunity → List (Str × Str) →
    Except Str TrendResp

/-- analyze_trend_patterns with its inner exception handler. -/
def analyze_trend_patterns (env : TrendEnv) (hist : List MarketFinding)
    (histOpps : List Opportunity) (cur : List (Str × Str)) : TrendResp :=
  match env.patterns hist histOpps cur with
  | .ok r => r
  | .error _ =>
    { summary := str "Error in trend analysis", trends := [], predictions := [] }

/-- Per-item construction of a `Trend`: `Category(...)` raises on an unknown
category, `trend_name` is truncated before construction, and pydantic
rejects a `momentum_score` outside [0, 1]; each failure is caught per item
and the item skipped. -/
def mkTrend (today : Date) (t : TrendItem) : Option Trend :=
  match Category.parse t.category with
  | none => none
  | some c =>
    if 0 ≤ t.momentum_score ∧ t.momentum_score ≤ 1 then
      some { trend_name := t.trend_name.take 255
             category := c
             momentum_score := t.momentum_score
             evidence := t.evidence
             first_detected := today
             prediction := t.prediction }
    else none

/-- The dict returned by `analyze_market_trends` (its StageResult). -/
structure TrendStageResult where
  error : Option Str := none
  trends_identified : ℕ := 0
  analysis_summary : Str := []
  key_trends : List Trend := []
  market_predictions : List Str := []
  opportunity_indicators : List Str := []
  risk_factors : List Str := []
  deriving DecidableEq, Repr

/-- analyze_market_trends: read historical findings (last 180 days, limit
100) and opportunities (limit 50) from the store for the prompt, run the
searches (a throw escapes to the stage handler and yields the error dict
with `trends_identified = 0`), analyze patterns with the inner fallback,
then validate and persist each trend item individually. -/
def analyze_market_trends (today : Date) (env : TrendEnv) (s : Store) :
    TrendStageResult × Store :=
  let hist := get_market_findings s 100 (some (today - 180))
  let histOpps := get_opportunities s none 50
  match env.searches with
  | .error e => ({ error := some e, trends_identified := 0 }, s)
  | .ok cur =>
    let resp := analyze_trend_patterns env hist histOpps cur
    let stored := resp.trends.filterMap (mkTrend today)
    ({ error := none
       trends_identified := stored.length
       analysis_summary := resp.summary
       key_trends := stored
       market_predictions := resp.predictions
       opportunity_indicators := resp.opportunity_indicators
       risk_factors := resp.risk_factors },
     { s with trends := s.trends ++ stored })

/-! ## Strategic Synthesis stage (src/agents/strategic_synthesis.py) -/

/-- One entry of the `opportunities` array of the opportunity-identification
completion response. -/
structure OppItem where
  title : Str := []
  description : Str := []
  market_gap : Str := []
  score : ℚ := 0
  priority : Str := str "medium"
  potential_revenue : Option Str := none
  implementation_complexity : Option Str := none
  time_to_market : Option Str := none
  deriving DecidableEq, Repr

/-- Parsed synthesis completion response. -/
structure SynthResp where
  executive_summary : Str := []
  strategic_insights : List Str := []
  recommendations : List Str := []
  competitive_positioning : Str := []
  risk_assessment : List Str := []
  action_plan : List Str := []
  deriving DecidableEq, Repr

/-- Environment of the synthesis stage: its two sequential completion calls.
`synthesize` is a function of the data placed in its prompt — the slices
`findings[:15]`, `updates[:15]`, `trends[:10]`, `opportunities[:5]` of the
four store reads; `identify` is a function of the synthesis output placed in
its prompt.  Both have inner try/except handlers. -/
structure SynthesisEnv where
  synthesize : List MarketFinding → List CompetitorUpdate → List Trend →
    List Opportunity → Except Str SynthResp
  identify : SynthResp → Except Str (List OppItem)

/-- synthesize_intelligence with its inner exception handler. -/
def synthesize_intelligence (env : SynthesisEnv) (findings : List MarketFinding)
    (updates : List CompetitorUpdate) (trends : List Trend)
    (opps : List Opportunity) : SynthResp :=
  match env.synthesize (findings.take 15) (updates.take 15) (trends.take 10)
      (opps.take 5) with
  | .ok a => a
  | .error _ =>
    { executive_summary := str "Error in strategic synthesis"
      strategic_insights := []
      recommendations := [] }

/-- identify_opportunities with its inner exception handler (fallback `[]`). -/
def identify_opportunities (env : SynthesisEnv) (analysis : SynthResp) :
    List OppItem :=
  match env.identify analysis with
  | .ok l => l
  | .error _ => []

/-- Per-item construction of an `Opportunity`: `Priority(...)` raises on an
unknown priority, `title` is truncated before construction, and pydantic
rejects a `score` outside [0, 1]; each failure is caught per item and the
item skipped. -/
def mkOpportunity (o : OppItem) : Option Opportunity :=
  match Priority.parse o.priority with
  | none => none
  | some p =>
    if 0 ≤ o.score ∧ o.score ≤ 1 then
      some { title := o.title.take 255
             description := o.description
             market_gap := o.market_gap
             score := o.score
             priority := p
             potential_revenue := o.potential_revenue
             implementation_complexity := o.implementation_complexity
             time_to_market := o.time_to_market }
    else none

/-- The dict returned by `generate_strategic_analysis` (its StageResult).
`top_opportunities` is `stored_opportunities[:5]` in the source. -/
structure SynthesisStageResult where
  error : Option Str := none
  executive_summary : Str := []
  strategic_insights : List Str := []
  new_opportunities : ℕ := 0
  top_opportunities : List Opportunity := []
  strategic_recommendations : List Str := []
  competitive_positioning : Str := []
  risk_assessment : List Str := []
  action_plan : List Str := []
  deriving DecidableEq, Repr

/-- generate_strategic_analysis: the stage takes NO stage outputs as input —
its four inputs are live reads of the Result Store (findings of the last 30
days limit 30, updates limit 20, trends with momentum >= 0.4 limit 15,
opportunities limit 10).  The two completion sub-calls run sequentially with
inner fallbacks; validated new opportunities are persisted individually.
All throw sites sit behind inner handlers, so the stage-level handler of the
source is unreachable in this model and the result always has
`error = none`. -/
def generate_strategic_analysis (today : Date) (env : SynthesisEnv)
    (s : Store) : SynthesisStageResult × Store :=
  let recent_findings := get_market_findings s 30 (some (today - 30))
  let competitor_updates := get_competitor_updates s none 20
  let current_trends := get_trends s (some 0.4) 15
  let existing_opportunities := get_opportunities s none 10
  let analysis := synthesize_intelligence env recent_findings
    competitor_updates current_trends existing_opportunities
  let items := identify_opportunities env analysis
  let stored := items.filterMap mkOpportunity
  ({ error := none
     executive_summary := analysis.executive_summary
     strategic_insights := analysis.strategic_insights
     new_opportunities := stored.length
     top_opportunities := stored.take 5
     strategic_recommendations := analysis.recommendations
     competitive_positioning := analysis.competitive_positioning
     risk_assessment := analysis.risk_assessment
     action_plan := analysis.action_plan },
   { s with opportunities := s.opportunities ++ stored })

/-! ## Orchestrator (src/crew/crew.py CompetitiveAnalysisCrew) -/

/-- Environment of one daily run.  The `*Raise` fields model an exception
escaping a stage coroutine uncaught (the stage bodies themselves catch
`Exception`, so in the source this corresponds to a defect or an exception
outside the stage handler); `asyncio.gather` propagates such an exception to
`run_daily_analysis`. -/
structure DailyEnv where
  today : Date
  marketResp : Except Str MarketAnalysis
  compEnv : CompetitorEnv
  trendEnv : TrendEnv
  synthEnv : SynthesisEnv
  marketRaise : Option Str := none
  compRaise : Option Str := none
  trendRaise : Option Str := none

/-- The `summary` sub-dict of the compiled run results. -/
structure RunSummary where
  findings_count : ℕ
  competitor_updates : ℕ
  trends_identified : ℕ
  opportunities_count : ℕ
  deriving DecidableEq, Repr

/-- The dict returned by `run_daily_analysis`: on success every stage key is
present; on the exception path only date, status and error are set. -/
structure RunResults where
  analysis_date : Date
  status : Str
  error : Option Str := none
  market_intelligence : Option MarketStageResult := none
  competitor_intelligence : Option CompetitorStageResult := none
  trend_analysis : Option TrendStageResult := none
  strategic_synthesis : Option SynthesisStageResult := none
  summary : Option RunSummary := none
  deriving DecidableEq, Repr

/-- An alert dict built by `identify_critical_alerts`. -/
structure Alert where
  title : Str
  description : Str
  impact_level : Str
  source : Str
  recommended_action : Str
  deriving DecidableEq, Repr

/-- The fan-out/fan-in of `asyncio.gather` over the three independent
stages.  The three stages write to disjoint tables, so any interleaving of
their independent inserts yields the same final store and they are sequenced
here.  If a stage coroutine raises, `gather` propagates the exception
(modelled with market-competitor-trend priority; the raising stage
contributes no writes) while the sibling stages are NOT cancelled — their
writes land. -/
def gatherStages (env : DailyEnv) (s0 : Store) :
    Except Str (MarketStageResult × CompetitorStageResult × TrendStageResult)
      × Store :=
  let step1 : Except Str MarketStageResult × Store :=
    match env.marketRaise with
    | some e => (.error e, s0)
    | none =>
      let p := gather_market_intelligence env.today env.marketResp s0
      (.ok p.1, p.2)
  let step2 : Except Str CompetitorStageResult × Store :=
    match env.compRaise with
    | some e => (.error e, step1.2)
    | none =>
      let p := monitor_competitors env.today env.compEnv step1.2
      (.ok p.1, p.2)
  let step3 : Except Str TrendStageResult × Store :=
    match env.trendRaise with
    | some e => (.error e, step2.2)
    | none =>
      let p := analyze_market_trends env.today env.trendEnv step2.2
      (.ok p.1, p.2)
  match step1.1, step2.1, step3.1 with
  | .ok m, .ok c, .ok t => (.ok (m, c, t), step3.2)
  | .error e, _, _ => (.error e, step3.2)
  | _, .error e, _ => (.error e, step3.2)
  | _, _, .error e => (.error e, step3.2)

/-- crew.identify_critical_alerts: the competitor rule scans the
`critical_threats` of the competitor stage result (re-checking
`impact in [high, critical]`), then the opportunity rule scans the
`top_opportunities` of the synthesis stage result for `score > 0.9` and
`priority == high`.  Missing stage keys (`results.get(..., default)`) give
empty scans. -/
def identify_critical_alerts (r : RunResults) : List Alert :=
  let threats := match r.competitor_intelligence with
    | some c => c.critical_threats
    | none => []
  let threatAlerts := threats.filterMap fun t =>
    if t.impact = .high ∨ t.impact = .critical then
      some { title := str "Critical Competitive Threat: " ++ t.company
             description := t.threat
             impact_level := t.impact.toStr
             source := str "Competitive Intelligence"
             recommended_action :=
               str "Review competitive response strategy immediately" }
    else none
  let opps := match r.strategic_synthesis with
    | some syn => syn.top_opportunities
    | none => []
  let oppAlerts := opps.filterMap fun o =>
    if 0.9 < o.score ∧ o.priority = .high then
      some { title := str "High-Value Opportunity: " ++ o.title
             description := o.description
             impact_level := str "high"
             source := str "Strategic Analysis"
             recommended_action :=
               str "Evaluate opportunity for immediate action" }
    else none
  threatAlerts ++ oppAlerts

/-- Outcome of one daily run: the returned results dict, the critical alerts
sent through the notifier by `send_daily_notifications`, and the store. -/
structure DailyOutcome where
  results : RunResults
  sent_alerts : List Alert
  store : Store
  deriving Repr

/-- run_daily_analysis.  Success path: gather the three independent stages,
run synthesis (a live store read, with no stage outputs passed), compile the
results dict with `status = "completed"`, persist one `AnalysisRun` via
`store_analysis_run` (unconditionally — there is no run-in-progress guard),
and send the critical alerts identified on the results.  Exception path (a
stage coroutine raised): the outer handler returns the error dict with
`status = "error"`; no `AnalysisRun` is stored and no notification runs. -/
def run_daily_analysis (env : DailyEnv) (s : Store) : DailyOutcome :=
  match gatherStages env s with
  | (.error e, s3) =>
    { results := { analysis_date := env.today, status := str "error"
                   error := some e }
      sent_alerts := []
      store := s3 }
  | (.ok (m, c, t), s3) =>
    let syn := generate_strategic_analysis env.today env.synthEnv s3
    let summary : RunSummary :=
      { findings_count := m.findings_count
        competitor_updates := c.competitor_analyses.length
        trends_identified := t.trends_identified
        opportunities_count := syn.1.new_opportunities }
    let results : RunResults :=
      { analysis_date := env.today
        status := str "completed"
        market_intelligence := some m
        competitor_intelligence := some c
        trend_analysis := some t
        strategic_synthesis := some syn.1
        summary := some summary }
    let run : AnalysisRun :=
      { run_date := env.today
        findings_count := summary.findings_count
        opportunities_identified := summary.opportunities_count
        key_insights := syn.1.strategic_insights
        recommendations := syn.1.strategic_recommendations
        status := results.status }
    { results := results
      sent_alerts := identify_critical_alerts results
      store := { syn.2 with analysis_runs := syn.2.analysis_runs ++ [run] } }

/-! ## Weekly summary (crew.run_weekly_summary) and its two read-only
sub-reports of the synthesis agent -/

/-- Environment of the weekly path: the briefing and portfolio completion
calls, each a function of the data placed in its prompt. -/
structure WeeklyEnv where
  today : Date
  briefing : AnalysisSummary → List Opportunity → List Trend →
    List CompetitorUpdate → Except Str Str
  portfolio : List Opportunity → Except Str Str

/-- Result of generate_executive_briefing. -/
structure Briefing where
  briefing_content : Option Str := none
  error : Option Str := none
  opportunities : ℕ := 0
  trends : ℕ := 0
  competitive_updates : ℕ := 0
  deriving DecidableEq, Repr

/-- generate_executive_briefing: four store reads feed one completion call;
the store is returned unchanged (reads only). -/
def generate_executive_briefing (env : WeeklyEnv) (s : Store) :
    Briefing × Store :=
  let analysis_summary := get_analysis_summary env.today 30 s
  let top_opportunities := get_opportunities s (some 0.7) 5
  let critical_trends := get_trends s (some 0.7) 5
  let recent_threats := get_competitor_updates s none 10
  let b := match env.briefing analysis_summary top_opportunities
      critical_trends recent_threats with
    | .ok content =>
      { briefing_content := some content
        opportunities := top_opportunities.length
        trends := critical_trends.length
        competitive_updates := recent_threats.length : Briefing }
    | .error e => { error := some e : Briefing }
  (b, s)

/-- Result of assess_opportunity_portfolio. -/
structure Portfolio where
  portfolio_size : ℕ := 0
  portfolio_analysis : Option Str := none
  error : Option Str := none
  deriving DecidableEq, Repr

/-- assess_opportunity_portfolio: one store read feeds one completion call;
the store is returned unchanged (reads only). -/
def assess_opportunity_portfolio (env : WeeklyEnv) (s : Store) :
    Portfolio × Store :=
  let all_opportunities := get_opportunities s none 50
  let p := match env.portfolio all_opportunities with
    | .ok content =>
      { portfolio_size := all_opportunities.length
        portfolio_analysis := some content : Portfolio }
    | .error e => { error := some e : Portfolio }
  (p, s)

/-- The dict returned by run_weekly_summary. -/
structure WeeklySummary where
  summary : AnalysisSummary
  executive_briefing : Briefing
  portfolio_assessment : Portfolio
  deriving DecidableEq, Repr

/-- crew.run_weekly_summary: a 7-day analysis summary, the executive
briefing and the portfolio assessment — reads only — then the digest email
(external).  No insert is issued on any table. -/
def run_weekly_summary (env : WeeklyEnv) (s : Store) : WeeklySummary × Store :=
  let weekly := get_analysis_summary env.today 7 s
  let b := generate_executive_briefing env s
  let p := assess_opportunity_portfolio env b.2
  ({ summary := weekly, executive_briefing := b.1, portfolio_assessment := p.1 },
   p.2)

/-! ## CLI entry point (src/crew/main.py) -/

/-- Environment of the quick-analysis path (two completion calls, each with
an inner handler turning a throw into an error dict). -/
structure QuickEnv where
  topicAnalysis : Str → Except Str Str
  convergence : Except Str Str

/-- Environment of one CLI process. -/
structure SystemEnv where
  daily : DailyEnv
  weekly : WeeklyEnv
  quick : QuickEnv

/-- The command main() dispatches to, after lowercasing `sys.argv[1]`. -/
inductive CliCommand
  | daily
  | weekly
  | quick (topic : Str)
  | usage
  deriving DecidableEq, Repr

/-- Python `" ".join(args)`. -/
def joinWords : List Str → Str
  | [] => []
  | [w] => w
  | w :: ws => w ++ [' '] ++ joinWords ws

/-- Argument handling of main(): no args or an unknown command prints usage
and returns; `quick` without a topic is also the usage path. -/
def parseCommand : List Str → CliCommand
  | [] => .usage
  | cmd :: rest =>
    let c := cmd.lower
    if c = str "daily" then .daily
    else if c = str "weekly" then .weekly
    else if c = str "quick" ∧ rest ≠ [] then .quick (joinWords rest)
    else .usage

/-- main.py run_daily_analysis wrapper: a database connectivity probe
(read-only) then the crew run; its own try/except catches every exception
and returns an error dict, so the wrapper never raises. -/
def main_run_daily (env : DailyEnv) (s : Store) : DailyOutcome :=
  let _probe := get_analysis_summary env.today 1 s
  run_daily_analysis env s

/-- main(): dispatch on the command; every wrapper catches its exceptions
and returns a dict, and main() never calls sys.exit, so the process
terminates normally — exit code 0 — on every path and for every run
status. -/
def cliMain (args : List Str) (env : SystemEnv) (s : Store) : ℕ × Store :=
  match parseCommand args with
  | .daily => (0, (main_run_daily env.daily s).store)
  | .weekly => (0, (run_weekly_summary env.weekly s).2)
  | .quick _ => (0, s)
  | .usage => (0, s)

/-! ## Reference Alert Evaluator of spec section 4.3 -/

/-- Modelled from the spec: the reference `evaluate(report)` of section 4.3,
over the records created in this run.  Rule one: any `CompetitorUpdate` with
`impact_level` in {high, critical} gives one threat alert carrying that
impact level.  Rule two: any `Opportunity` with `score > 0.9` and
`priority == high` gives one opportunity alert with impact "high" and source
"Strategic Analysis".  Fixed order, all matching rules fire.  The alert
payloads reuse the description/recommended-action fields of the source so
the two evaluators are comparable by equality. -/
def evaluateSpec (updates : List CompetitorUpdate) (opps : List Opportunity) :
    List Alert :=
  (updates.filterMap fun u =>
    if u.impact_level = .high ∨ u.impact_level = .critical then
      some { title := str "Critical Competitive Threat: " ++ u.company_name
             description := u.description
             impact_level := u.impact_level.toStr
             source := str "Competitive Intelligence"
             recommended_action :=
               str "Review competitive response strategy immediately" }
    else none)
  ++ (opps.filterMap fun o =>
    if 0.9 < o.score ∧ o.priority = .high then
      some { title := str "High-Value Opportunity: " ++ o.title
             description := o.description
             impact_level := str "high"
             source := str "Strategic Analysis"
             recommended_action :=
               str "Evaluate opportunity for immediate action" }
    else none)

/-! ## Shared helper lemmas -/

/-- The length of a filterMap is the number of elements the function keeps. -/
theorem length_filterMap_eq_length_filter {α β : Type} (f : α → Option β)
    (l : List α) :
    (l.filterMap f).length = (l.filter fun a => (f a).isSome).length := by
  induction l with
  | nil => rfl
  | cons a l ih =>
    cases h : f a <;> simp [List.filterMap_cons, List.filter_cons, h, ih]

/-- Evaluation lemmas for the enum parsers at the strings the concrete
instances below use. -/
theorem category_parse_default :
    Category.parse (str "market_trend") = some .market_trend := by decide

/-- Priority parser at the string "high". -/
theorem priority_parse_high : Priority.parse (str "high") = some .high := by
  decide

/-- Priority parser at the string "low". -/
theorem priority_parse_low : Priority.parse (str "low") = some .low := by
  decide

/-! ## C10: run_weekly_summary performs no writes -/

/-- C10: run_weekly_summary never writes to the Result Store: it only reads
persisted records through the analysis-summary, opportunity, trend and
competitor-update query interfaces (and sends the digest through the
external notifier), so the store after a weekly-summary execution is exactly
the store before it. -/
theorem weekly_summary_never_writes_store (env : WeeklyEnv) (s : Store) :
    (run_weekly_summary env s).2 = s := rfl

/-! ## C6: pipeline-level failure alone produces no critical alert -/

/-- C6: for every run report whose status is "error" and which carries no
competitor threat with impact high or critical and no top opportunity with
score above 0.9 and priority high, the alert evaluator returns the empty
list — pipeline-level failure alone never generates a critical alert. -/
theorem error_status_alone_yields_no_alerts (r : RunResults)
    (hstatus : r.status = str "error")
    (hthreats : ∀ c, r.competitor_intelligence = some c →
      ∀ t ∈ c.critical_threats, t.impact ≠ .high ∧ t.impact ≠ .critical)
    (hopps : ∀ syn, r.strategic_synthesis = some syn →
      ∀ o ∈ syn.top_opportunities, ¬(0.9 < o.score ∧ o.priority = .high)) :
    identify_critical_alerts r = [] := by
  rcases hcomp : r.competitor_intelligence with _ | c <;>
    rcases hsyn : r.strategic_synthesis with _ | syn <;>
      simp only [identify_critical_alerts, hcomp, hsyn] <;>
      refine List.append_eq_nil.mpr ⟨List.filterMap_eq_nil_iff.mpr ?_,
        List.filterMap_eq_nil_iff.mpr ?_⟩ <;> intro x hx <;> try simp at hx
  case some.none.refine_1 =>
    obtain ⟨h1, h2⟩ := hthreats c hcomp x hx
    simp [h1, h2]
  case some.some.refine_1 =>
    obtain ⟨h1, h2⟩ := hthreats c hcomp x hx
    simp [h1, h2]
  case none.some.refine_2 =>
    exact if_neg (hopps syn hsyn x hx)
  case some.some.refine_2 =>
    exact if_neg (hopps syn hsyn x hx)

/-- Witness for C6: the concrete error-shaped results dict of the source
(only date, status and error set) yields no alerts. -/
theorem error_status_alone_yields_no_alerts_witness :
    identify_critical_alerts
      { analysis_date := 0, status := str "error", error := some (str "boom") }
      = [] := by
  exact error_status_alone_yields_no_alerts _ rfl
    (by intro c hc; cases hc) (by intro syn hs; cases hs)

/-! ## C4: out-of-range scores are rejected, never clamped -/

/-- Characterization of mkMarketFinding: it accepts exactly the items whose
category parses and whose score is in range, and then truncates the text
fields while keeping the score unchanged. -/
theorem mkMarketFinding_eq_some (today : Date) (f : FindingItem)
    (mf : MarketFinding) :
    mkMarketFinding today f = some mf ↔
      ∃ c, Category.parse f.category = some c ∧
        (0 ≤ f.relevance_score ∧ f.relevance_score ≤ 1) ∧
        mf = { date := today, category := c, title := f.title.take 500
               summary := f.summary.take 2000, content := f.content
               relevance_score := f.relevance_score
               source_url := f.source_url } := by
  unfold mkMarketFinding
  constructor
  · intro h
    split at h
    · cases h
    · next c heq =>
      split at h
      · next hc => cases h; exact ⟨c, heq, hc, rfl⟩
      · cases h
  · rintro ⟨c, heq, hc, rfl⟩
    simp [heq, hc]

/-- mkMarketFinding rejects (returns none on) exactly the items with an
unknown category or an out-of-range score. -/
theorem mkMarketFinding_isSome (today : Date) (f : FindingItem) :
    (mkMarketFinding today f).isSome ↔
      (Category.parse f.category).isSome ∧
      0 ≤ f.relevance_score ∧ f.relevance_score ≤ 1 := by
  unfold mkMarketFinding
  split
  · next heq => simp [heq]
  · next c heq =>
    rw [heq]
    split
    · next hc => simpa using hc
    · next hc => simpa using fun h1 h2 => hc ⟨h1, h2⟩

/-- Analogous characterization for mkOpportunity. -/
theorem mkOpportunity_eq_some (o : OppItem) (opp : Opportunity) :
    mkOpportunity o = some opp ↔
      ∃ p, Priority.parse o.priority = some p ∧
        (0 ≤ o.score ∧ o.score ≤ 1) ∧
        opp = { title := o.title.take 255, description := o.description
                market_gap := o.market_gap, score := o.score, priority := p
                potential_revenue := o.potential_revenue
                implementation_complexity := o.implementation_complexity
                time_to_market := o.time_to_market } := by
  unfold mkOpportunity
  constructor
  · intro h
    split at h
    · cases h
    · next p heq =>
      split at h
      · next hc => cases h; exact ⟨p, heq, hc, rfl⟩
      · cases h
  · rintro ⟨p, heq, hc, rfl⟩
    simp [heq, hc]

/-- mkOpportunity acceptance is independent of the text lengths. -/
theorem mkOpportunity_isSome (o : OppItem) :
    (mkOpportunity o).isSome ↔
      (Priority.parse o.priority).isSome ∧ 0 ≤ o.score ∧ o.score ≤ 1 := by
  unfold mkOpportunity
  split
  · next heq => simp [heq]
  · next p heq =>
    rw [heq]
    split
    · next hc => simpa using hc
    · next hc => simpa using fun h1 h2 => hc ⟨h1, h2⟩

/-- Analogous characterization for mkTrend. -/
theorem mkTrend_eq_some (today : Date) (t : TrendItem) (tr : Trend) :
    mkTrend today t = some tr ↔
      ∃ c, Category.parse t.category = some c ∧
        (0 ≤ t.momentum_score ∧ t.momentum_score ≤ 1) ∧
        tr = { trend_name := t.trend_name.take 255, category := c
               momentum_score := t.momentum_score, evidence := t.evidence
               first_detected := today, prediction := t.prediction } := by
  unfold mkTrend
  constructor
  · intro h
    split at h
    · cases h
    · next c heq =>
      split at h
      · next hc => cases h; exact ⟨c, heq, hc, rfl⟩
      · cases h
  · rintro ⟨c, heq, hc, rfl⟩
    simp [heq, hc]

/-- mkTrend acceptance is independent of the text lengths. -/
theorem mkTrend_isSome (today : Date) (t : TrendItem) :
    (mkTrend today t).isSome ↔
      (Category.parse t.category).isSome ∧
      0 ≤ t.momentum_score ∧ t.momentum_score ≤ 1 := by
  unfold mkTrend
  split
  · next heq => simp [heq]
  · next c heq =>
    rw [heq]
    split
    · next hc => simpa using hc
    · next hc => simpa using fun h1 h2 => hc ⟨h1, h2⟩

/-- C4: in the Market stage, an item whose relevance_score lies outside
[0, 1] is rejected and skipped, never clamped into range; stored findings
keep their original score; the stage still succeeds, and findings_count
counts exactly the items that pass validation. -/
theorem out_of_range_scores_rejected_not_clamped (today : Date)
    (a : MarketAnalysis) (s : Store) :
    (gather_market_intelligence today (.ok a) s).1.error = none ∧
    (gather_market_intelligence today (.ok a) s).1.findings_count
      = (a.findings.filter fun f => (mkMarketFinding today f).isSome).length ∧
    (∀ f ∈ a.findings, f.relevance_score < 0 ∨ 1 < f.relevance_score →
      mkMarketFinding today f = none) ∧
    (∀ f mf, mkMarketFinding today f = some mf →
      mf.relevance_score = f.relevance_score) ∧
    (gather_market_intelligence today (.ok a) s).2.market_findings
      = s.market_findings ++ a.findings.filterMap (mkMarketFinding today) := by
  refine ⟨rfl, ?_, ?_, ?_, rfl⟩
  · simp [gather_market_intelligence, length_filterMap_eq_length_filter]
  · intro f _ hout
    cases hm : mkMarketFinding today f with
    | none => rfl
    | some mf =>
      obtain ⟨c, _, ⟨h0, h1⟩, _⟩ := (mkMarketFinding_eq_some today f mf).mp hm
      rcases hout with h | h
      · exact absurd h0 (not_le.mpr h)
      · exact absurd h1 (not_le.mpr h)
  · intro f mf h
    obtain ⟨c, _, _, rfl⟩ := (mkMarketFinding_eq_some today f mf).mp h
    rfl

/-- A concrete market-stage response item with a given score. -/
def c4Item (q : ℚ) : FindingItem := { title := str "t", relevance_score := q }

/-- The end-to-end scenario of the spec: five valid items and two items with
an out-of-range score. -/
def c4Analysis : MarketAnalysis :=
  { findings := [c4Item 1, c4Item 1, c4Item 0, c4Item 1, c4Item 1,
                 c4Item 1.4, c4Item 1.4] }

/-- Evaluation of mkMarketFinding on a valid concrete item. -/
theorem mk_c4Item_valid (today : Date) (q : ℚ) (h0 : 0 ≤ q) (h1 : q ≤ 1) :
    mkMarketFinding today (c4Item q) = some
      { date := today, category := .market_trend
        title := (str "t").take 500, summary := ([] : Str).take 2000
        content := [], relevance_score := q, source_url := none } :=
  (mkMarketFinding_eq_some today (c4Item q) _).mpr
    ⟨.market_trend, category_parse_default, ⟨h0, h1⟩, rfl⟩

/-- Evaluation of mkMarketFinding on the out-of-range concrete item. -/
theorem mk_c4Item_invalid : mkMarketFinding 0 (c4Item 1.4) = none := by
  rw [← Option.not_isSome_iff_eq_none, mkMarketFinding_isSome]
  rintro ⟨-, -, h⟩
  norm_num [c4Item] at h

/-- Witness for C4: five valid findings plus two items with score 1.4 yield
findings_count = 5, no stage error, and each 1.4 item is rejected. -/
theorem out_of_range_scores_rejected_not_clamped_witness :
    (gather_market_intelligence 0 (.ok c4Analysis) {}).1.error = none ∧
    (gather_market_intelligence 0 (.ok c4Analysis) {}).1.findings_count = 5 ∧
    mkMarketFinding 0 (c4Item 1.4) = none := by
  obtain ⟨h1, h2, h3, _, _⟩ :=
    out_of_range_scores_rejected_not_clamped 0 c4Analysis {}
  refine ⟨h1, ?_, ?_⟩
  · rw [h2]
    simp [c4Analysis, List.filter_cons,
      mk_c4Item_valid 0 1 (by norm_num) (by norm_num),
      mk_c4Item_valid 0 0 (by norm_num) (by norm_num), mk_c4Item_invalid]
  · exact h3 (c4Item 1.4) (by simp [c4Analysis]) (Or.inr (by norm_num [c4Item]))

/-! ## C9: over-length text fields are truncated, never rejected -/

/-- C9: every MarketFinding, Opportunity and Trend a stage constructs
satisfies the length bounds (title at most 500, summary at most 2000,
opportunity title at most 255, trend_name at most 255) because over-length
text is truncated to the limit at construction; acceptance of an item never
depends on its text lengths — only an out-of-range score or an unknown enum
string rejects it, so length violations never reduce the persisted-item
count. -/
theorem text_fields_truncated_never_rejected :
    (∀ today f mf, mkMarketFinding today f = some mf →
      mf.title.length ≤ 500 ∧ mf.summary.length ≤ 2000 ∧
      mf.title = f.title.take 500 ∧ mf.summary = f.summary.take 2000) ∧
    (∀ today f, (mkMarketFinding today f).isSome ↔
      (Category.parse f.category).isSome ∧
      0 ≤ f.relevance_score ∧ f.relevance_score ≤ 1) ∧
    (∀ o opp, mkOpportunity o = some opp →
      opp.title.length ≤ 255 ∧ opp.title = o.title.take 255) ∧
    (∀ o, (mkOpportunity o).isSome ↔
      (Priority.parse o.priority).isSome ∧ 0 ≤ o.score ∧ o.score ≤ 1) ∧
    (∀ today t tr, mkTrend today t = some tr →
      tr.trend_name.length ≤ 255 ∧ tr.trend_name = t.trend_name.take 255) ∧
    (∀ today t, (mkTrend today t).isSome ↔
      (Category.parse t.category).isSome ∧
      0 ≤ t.momentum_score ∧ t.momentum_score ≤ 1) := by
  refine ⟨?_, mkMarketFinding_isSome, ?_, mkOpportunity_isSome, ?_,
    mkTrend_isSome⟩
  · intro today f mf h
    obtain ⟨c, _, _, rfl⟩ := (mkMarketFinding_eq_some today f mf).mp h
    refine ⟨?_, ?_, rfl, rfl⟩ <;> simp [List.length_take]
  · intro o opp h
    obtain ⟨p, _, _, rfl⟩ := (mkOpportunity_eq_some o opp).mp h
    exact ⟨by simp [List.length_take], rfl⟩
  · intro today t tr h
    obtain ⟨c, _, _, rfl⟩ := (mkTrend_eq_some today t tr).mp h
    exact ⟨by simp [List.length_take], rfl⟩

/-- A concrete over-length response item: a 600-character title. -/
def c9Item : FindingItem :=
  { title := List.replicate 600 'a', relevance_score := 1 }

/-- Projection of the concrete item: its score. -/
theorem c9Item_score : c9Item.relevance_score = 1 := rfl

/-- Projection of the concrete item: its (default) category string. -/
theorem c9Item_category : c9Item.category = str "market_trend" := rfl

/-- Witness for C9: an item whose title is 600 characters long is still
accepted (validity is independent of text lengths), while the very same
600-character text exceeds the 500-character bound. -/
theorem text_fields_truncated_never_rejected_witness :
    (mkMarketFinding 0 c9Item).isSome ∧
    500 < c9Item.title.length := by
  constructor
  · exact (text_fields_truncated_never_rejected.2.1 0 _).mpr
      ⟨by rw [c9Item_category, category_parse_default]; rfl,
       by rw [c9Item_score]; norm_num, by rw [c9Item_score]⟩
  · show 500 < (List.replicate 600 'a').length
    rw [List.length_replicate]
    norm_num

/-! ## Frame lemmas for the orchestrator proofs -/

/-- The store a competitor-loop outcome carries, on either branch. -/
def loopStore :
    Except (Str × Store)
      (List CompetitorUpdate × List (Str × CompAnalysis) × Store) → Store
  | .ok (_, _, s) => s
  | .error (_, s) => s

/-- The Market stage writes only to the market_findings table. -/
theorem gather_market_frame (today : Date) (resp : Except Str MarketAnalysis)
    (s : Store) :
    (gather_market_intelligence today resp s).2.competitor_updates
      = s.competitor_updates ∧
    (gather_market_intelligence today resp s).2.opportunities
      = s.opportunities ∧
    (gather_market_intelligence today resp s).2.trends = s.trends ∧
    (gather_market_intelligence today resp s).2.analysis_runs
      = s.analysis_runs := by
  cases resp <;> simp [gather_market_intelligence]

/-- The competitor loop writes only to the competitor_updates table. -/
theorem competitorLoop_frame (today : Date) (env : CompetitorEnv) :
    ∀ (cs : List Str) (s : Store) (ups : List CompetitorUpdate)
      (ans : List (Str × CompAnalysis)),
      (loopStore (competitorLoop today env cs s ups ans)).market_findings
        = s.market_findings ∧
      (loopStore (competitorLoop today env cs s ups ans)).opportunities
        = s.opportunities ∧
      (loopStore (competitorLoop today env cs s ups ans)).trends = s.trends ∧
      (loopStore (competitorLoop today env cs s ups ans)).analysis_runs
        = s.analysis_runs := by
  intro cs
  induction cs with
  | nil =>
    intro s ups ans
    simp [competitorLoop, loopStore]
  | cons c rest ih =>
    intro s ups ans
    unfold competitorLoop
    by_cases hname : c.strip = []
    · rw [if_pos hname]
      exact ih s ups ans
    · rw [if_neg hname]
      cases hs : env.search c.strip with
      | error e => simp [loopStore]
      | ok raw => simpa using ih _ _ _

/-- The Competitor stage writes only to the competitor_updates table. -/
theorem monitor_competitors_frame (today : Date) (env : CompetitorEnv)
    (s : Store) :
    (monitor_competitors today env s).2.market_findings = s.market_findings ∧
    (monitor_competitors today env s).2.opportunities = s.opportunities ∧
    (monitor_competitors today env s).2.trends = s.trends ∧
    (monitor_competitors today env s).2.analysis_runs = s.analysis_runs := by
  have h := competitorLoop_frame today env env.competitors s [] []
  unfold monitor_competitors
  cases hl : competitorLoop today env env.competitors s [] [] with
  | error p =>
    rw [hl] at h
    obtain ⟨p1, p2⟩ := p
    simpa [loopStore] using h
  | ok p =>
    rw [hl] at h
    obtain ⟨u, a, s1⟩ := p
    simpa [loopStore] using h

/-- The Trend stage writes only to the trends table. -/
theorem analyze_market_trends_frame (today : Date) (env : TrendEnv)
    (s : Store) :
    (analyze_market_trends today env s).2.market_findings
      = s.market_findings ∧
    (analyze_market_trends today env s).2.competitor_updates
      = s.competitor_updates ∧
    (analyze_market_trends today env s).2.opportunities = s.opportunities ∧
    (analyze_market_trends today env s).2.analysis_runs
      = s.analysis_runs := by
  unfold analyze_market_trends
  cases env.searches <;> simp

/-- The Synthesis stage writes only to the opportunities table. -/
theorem generate_strategic_analysis_frame (today : Date) (env : SynthesisEnv)
    (s : Store) :
    (generate_strategic_analysis today env s).2.market_findings
      = s.market_findings ∧
    (generate_strategic_analysis today env s).2.competitor_updates
      = s.competitor_updates ∧
    (generate_strategic_analysis today env s).2.trends = s.trends ∧
    (generate_strategic_analysis today env s).2.analysis_runs
      = s.analysis_runs := by
  simp [generate_strategic_analysis]

/-- The success path of run_daily_analysis, spelled out: when no stage
coroutine raises, the three gathered stages run (in the model sequentially —
their writes go to disjoint tables), then synthesis, then the compilation of
the results dict, the unconditional AnalysisRun insert and the alert
identification. -/
def runDailyUnfolded (env : DailyEnv) (s : Store) : DailyOutcome :=
  let p1 := gather_market_intelligence env.today env.marketResp s
  let p2 := monitor_competitors env.today env.compEnv p1.2
  let p3 := analyze_market_trends env.today env.trendEnv p2.2
  let syn := generate_strategic_analysis env.today env.synthEnv p3.2
  let summary : RunSummary :=
    { findings_count := p1.1.findings_count
      competitor_updates := p2.1.competitor_analyses.length
      trends_identified := p3.1.trends_identified
      opportunities_count := syn.1.new_opportunities }
  let results : RunResults :=
    { analysis_date := env.today
      status := str "completed"
      market_intelligence := some p1.1
      competitor_intelligence := some p2.1
      trend_analysis := some p3.1
      strategic_synthesis := some syn.1
      summary := some summary }
  let run : AnalysisRun :=
    { run_date := env.today
      findings_count := summary.findings_count
      opportunities_identified := summary.opportunities_count
      key_insights := syn.1.strategic_insights
      recommendations := syn.1.strategic_recommendations
      status := results.status }
  { results := results
    sent_alerts := identify_critical_alerts results
    store := { syn.2 with analysis_runs := syn.2.analysis_runs ++ [run] } }

/-- When no stage coroutine raises, run_daily_analysis takes the success
path. -/
theorem run_daily_success (env : DailyEnv) (s : Store)
    (hm : env.marketRaise = none) (hc : env.compRaise = none)
    (ht : env.trendRaise = none) :
    run_daily_analysis env s = runDailyUnfolded env s := by
  unfold run_daily_analysis gatherStages runDailyUnfolded
  rw [hm, hc, ht]

/-! ## Success-path facts about run_daily_analysis -/

/-- The AnalysisRun row a successful run appends. -/
def runRowOf (env : DailyEnv) (s : Store) : AnalysisRun :=
  let p1 := gather_market_intelligence env.today env.marketResp s
  let p2 := monitor_competitors env.today env.compEnv p1.2
  let p3 := analyze_market_trends env.today env.trendEnv p2.2
  let syn := generate_strategic_analysis env.today env.synthEnv p3.2
  { run_date := env.today
    findings_count := p1.1.findings_count
    opportunities_identified := syn.1.new_opportunities
    key_insights := syn.1.strategic_insights
    recommendations := syn.1.strategic_recommendations
    status := str "completed" }

/-- Every run with no stage-coroutine exception completes: its status is
"completed" and it unconditionally appends exactly one AnalysisRun row —
there is no run-in-progress guard — whose findings_count comes from the
Market stage. -/
theorem run_daily_success_store (env : DailyEnv) (s : Store)
    (hm : env.marketRaise = none) (hc : env.compRaise = none)
    (ht : env.trendRaise = none) :
    (run_daily_analysis env s).results.status = str "completed" ∧
    ∃ run : AnalysisRun, run.run_date = env.today ∧
      run.status = str "completed" ∧
      run.findings_count
        = (gather_market_intelligence env.today env.marketResp s).1.findings_count ∧
      (run_daily_analysis env s).store.analysis_runs
        = s.analysis_runs ++ [run] := by
  have h1 := (gather_market_frame env.today env.marketResp s).2.2.2
  have h2 := (monitor_competitors_frame env.today env.compEnv
    (gather_market_intelligence env.today env.marketResp s).2).2.2.2
  have h3 := (analyze_market_trends_frame env.today env.trendEnv
    (monitor_competitors env.today env.compEnv
      (gather_market_intelligence env.today env.marketResp s).2).2).2.2.2
  have h4 := (generate_strategic_analysis_frame env.today env.synthEnv
    (analyze_market_trends env.today env.trendEnv
      (monitor_competitors env.today env.compEnv
        (gather_market_intelligence env.today env.marketResp s).2).2).2).2.2.2
  rw [run_daily_success env s hm hc ht]
  refine ⟨rfl, ⟨runRowOf env s, rfl, rfl, rfl, ?_⟩⟩
  show (generate_strategic_analysis env.today env.synthEnv
      (analyze_market_trends env.today env.trendEnv
        (monitor_competitors env.today env.compEnv
          (gather_market_intelligence env.today
            env.marketResp s).2).2).2).2.analysis_runs
      ++ [runRowOf env s] = s.analysis_runs ++ [runRowOf env s]
  rw [h4, h3, h2, h1]

/-! ## C2: stage errors and run completion -/

/-- C2 (amended): for every daily run in which no stage coroutine raises an
unhandled exception — whatever soft errors the Competitor (or any other)
stage records internally — run_daily_analysis completes: it returns status
"completed" and persists one AnalysisRun with status "completed" whose
findings_count is the number of validated Market findings.  (A truly
unhandled stage exception instead aborts the run; see the counterexample.) -/
theorem soft_error_run_completes (env : DailyEnv) (s : Store)
    (hm : env.marketRaise = none) (hc : env.compRaise = none)
    (ht : env.trendRaise = none)
    (a : MarketAnalysis) (hresp : env.marketResp = .ok a) :
    (run_daily_analysis env s).results.status = str "completed" ∧
    ∃ run : AnalysisRun, run.run_date = env.today ∧
      run.status = str "completed" ∧
      run.findings_count
        = (a.findings.filterMap (mkMarketFinding env.today)).length ∧
      (run_daily_analysis env s).store.analysis_runs
        = s.analysis_runs ++ [run] := by
  obtain ⟨hstat, run, hd, hs, hf, hr⟩ := run_daily_success_store env s hm hc ht
  refine ⟨hstat, run, hd, hs, ?_, hr⟩
  rw [hf, hresp]
  rfl

/-! Concrete environments for the orchestrator-level instances. -/

/-- A competitor environment with no competitors configured. -/
def benignCompEnv : CompetitorEnv :=
  { competitors := []
    search := fun _ => .ok []
    analyze := fun _ _ => .ok {}
    landscape := .ok {} }

/-- A competitor environment whose (single) search call throws: the stage
soft-fails through its stage-level handler. -/
def failSearchCompEnv : CompetitorEnv :=
  { competitors := [str "x"]
    search := fun _ => .error (str "net")
    analyze := fun _ _ => .ok {}
    landscape := .ok {} }

/-- A trend environment whose calls all succeed with empty payloads. -/
def benignTrendEnv : TrendEnv :=
  { searches := .ok [], patterns := fun _ _ _ => .ok {} }

/-- A synthesis environment whose calls all succeed with empty payloads. -/
def benignSynthEnv : SynthesisEnv :=
  { synthesize := fun _ _ _ _ => .ok {}, identify := fun _ => .ok [] }

/-- A market response carrying one valid finding. -/
def c2Analysis : MarketAnalysis := { findings := [c4Item 1] }

/-- A daily run in which the Market stage succeeds with one finding while
the Competitor stage soft-fails on its search call. -/
def c2Env : DailyEnv :=
  { today := 5, marketResp := .ok c2Analysis, compEnv := failSearchCompEnv,
    trendEnv := benignTrendEnv, synthEnv := benignSynthEnv }

/-- Witness for C2: in the run of `c2Env` the Competitor stage records a
stage-level soft error, yet the run completes and persists an AnalysisRun
with status "completed" and findings_count 1 from the Market stage. -/
theorem soft_error_run_completes_witness :
    (run_daily_analysis c2Env {}).results.status = str "completed" ∧
    (monitor_competitors 5 failSearchCompEnv
        (gather_market_intelligence 5 (.ok c2Analysis) {}).2).1.error
      = some (str "net") ∧
    (run_daily_analysis c2Env {}).store.analysis_runs
      = [{ run_date := 5, findings_count := 1, opportunities_identified := 0,
           key_insights := [], recommendations := [],
           status := str "completed" }] := by
  obtain ⟨hstat, -⟩ :=
    soft_error_run_completes c2Env {} rfl rfl rfl c2Analysis rfl
  exact ⟨hstat, rfl, rfl⟩

/-- The run of the C2 premise as literally stated: the Competitor stage raises
an unhandled exception. -/
def c2RaiseEnv : DailyEnv := { c2Env with compRaise := some (str "boom") }

/-- Counterexample to C2 as stated: with the Market stage succeeding with
one valid finding and the Competitor stage raising an unhandled exception,
run_daily_analysis returns status "error" and persists NO AnalysisRun at
all — not a completed run with the Market count. -/
theorem unhandled_exception_aborts_run_cex :
    (gather_market_intelligence 5 (.ok c2Analysis) {}).1.findings_count = 1 ∧
    (run_daily_analysis c2RaiseEnv {}).results.status = str "error" ∧
    (run_daily_analysis c2RaiseEnv {}).store.analysis_runs = [] :=
  ⟨rfl, rfl, rfl⟩

/-! ## C7: no run-in-progress guard -/

/-- C7 (amended): the Orchestrator holds NO run-in-progress guard; every
completing run unconditionally inserts its own AnalysisRun row, so two runs
for the same run_date add two rows for that date (and each run performs its
own alert delivery).  Mutual exclusion for the same analysis window does not
exist in the code. -/
theorem no_guard_duplicate_rows (env1 env2 : DailyEnv) (s : Store) (d : Date)
    (h1 : env1.today = d) (h2 : env2.today = d)
    (hm1 : env1.marketRaise = none) (hc1 : env1.compRaise = none)
    (ht1 : env1.trendRaise = none) (hm2 : env2.marketRaise = none)
    (hc2 : env2.compRaise = none) (ht2 : env2.trendRaise = none) :
    (((run_daily_analysis env2
          (run_daily_analysis env1 s).store).store.analysis_runs.filter
        fun r => r.run_date == d).length)
      = ((s.analysis_runs.filter fun r => r.run_date == d).length) + 2 := by
  obtain ⟨-, run1, hd1, -, -, hr1⟩ := run_daily_success_store env1 s hm1 hc1 ht1
  obtain ⟨-, run2, hd2, -, -, hr2⟩ :=
    run_daily_success_store env2 (run_daily_analysis env1 s).store hm2 hc2 ht2
  have e1 : (run1.run_date == d) = true := beq_iff_eq.mpr (hd1.trans h1)
  have e2 : (run2.run_date == d) = true := beq_iff_eq.mpr (hd2.trans h2)
  rw [hr2, hr1]
  simp [List.filter_append, e1, e2]

/-- A fully benign daily environment for date 42. -/
def benignDaily : DailyEnv :=
  { today := 42, marketResp := .ok {}, compEnv := benignCompEnv,
    trendEnv := benignTrendEnv, synthEnv := benignSynthEnv }

/-- Counterexample to C7 as stated: running the Orchestrator twice for the
same run_date — one legal schedule of two concurrent invocations, since no
guard blocks the second — produces TWO AnalysisRun rows for that date, not
at most one. -/
theorem duplicate_runs_same_date_cex :
    ((run_daily_analysis benignDaily
        (run_daily_analysis benignDaily {}).store).store.analysis_runs.filter
      fun r => r.run_date == 42).length = 2 := rfl

/-- Witness for C7 (amended): the two benign runs land exactly two rows on
an initially empty store. -/
theorem no_guard_duplicate_rows_witness :
    ((((run_daily_analysis benignDaily
          (run_daily_analysis benignDaily
            ({} : Store)).store).store.analysis_runs.filter
        fun r => r.run_date == 42).length)
      = ((({} : Store).analysis_runs.filter
          fun r => r.run_date == 42).length) + 2) :=
  no_guard_duplicate_rows benignDaily benignDaily {} 42
    rfl rfl rfl rfl rfl rfl rfl rfl

/-! ## C8: CLI exit codes -/

/-- C8 (amended): every CLI invocation — daily, weekly, quick, or a usage
error — terminates normally with exit code 0, whatever the run status: the
wrapper functions catch every exception and return an error dict, and
main() never calls sys.exit, so failures are reported only in printed
output, never through the exit code. -/
theorem cli_always_exits_zero (args : List Str) (env : SystemEnv) (s : Store) :
    (cliMain args env s).1 = 0 := by
  unfold cliMain
  cases parseCommand args <;> rfl

/-- A weekly environment whose completion calls succeed. -/
def benignWeekly : WeeklyEnv :=
  { today := 42, briefing := fun _ _ _ _ => .ok [], portfolio := fun _ => .ok [] }

/-- A quick-analysis environment whose completion calls succeed. -/
def benignQuick : QuickEnv :=
  { topicAnalysis := fun _ => .ok [], convergence := .ok [] }

/-- A system environment whose daily run fails with an unhandled stage
exception, so the daily run reports status "error". -/
def errSystemEnv : SystemEnv :=
  { daily := { benignDaily with marketRaise := some (str "boom") }
    weekly := benignWeekly
    quick := benignQuick }

/-- Counterexample to C8 as stated: a daily run whose status is "error"
still exits with code 0 — there is no non-zero exit path. -/
theorem cli_exit_zero_on_error_cex :
    (run_daily_analysis errSystemEnv.daily {}).results.status = str "error" ∧
    (cliMain [str "daily"] errSystemEnv {}).1 = 0 :=
  ⟨rfl, rfl⟩

/-! ## C5: where completion failures surface -/

/-- When every search succeeds and every per-competitor completion call
fails, the competitor loop completes without a stage-level error and stores
nothing: each inner handler replaces the failed analysis by the fallback
with an empty updates list. -/
theorem competitorLoop_all_analyze_fail (today : Date) (env : CompetitorEnv)
    (hsearch : ∀ n, ∃ r, env.search n = .ok r)
    (hanalyze : ∀ n r, ∃ msg, env.analyze n r = .error msg) :
    ∀ (cs : List Str) (s : Store) (ans : List (Str × CompAnalysis)),
      ∃ a s', competitorLoop today env cs s [] ans = .ok ([], a, s') := by
  intro cs
  induction cs with
  | nil =>
    intro s ans
    exact ⟨ans, s, rfl⟩
  | cons c rest ih =>
    intro s ans
    unfold competitorLoop
    by_cases hname : c.strip = []
    · rw [if_pos hname]
      exact ih s ans
    · rw [if_neg hname]
      obtain ⟨r, hr⟩ := hsearch c.strip
      rw [hr]
      obtain ⟨msg, hmsg⟩ := hanalyze c.strip r
      simp only [analyze_competitor_updates, hmsg]
      exact ih _ _

/-- C5 (amended): no stage ever propagates a completion-service failure as
an exception to the Orchestrator, and a failed or unparseable completion
response always yields a zero item count — but only the Market stage also
sets the error field of its StageResult.  The Competitor, Trend and
Synthesis stages swallow completion failures in inner handlers and return a
success-shaped StageResult with NO error field. -/
theorem stage_error_field_policy (today : Date) (s : Store) :
    (∀ e, (gather_market_intelligence today (.error e) s).1.error = some e ∧
      (gather_market_intelligence today (.error e) s).1.findings_count = 0 ∧
      (gather_market_intelligence today (.error e) s).2 = s) ∧
    (∀ env : CompetitorEnv,
      (∀ n, ∃ r, env.search n = .ok r) →
      (∀ n r, ∃ msg, env.analyze n r = .error msg) →
      (monitor_competitors today env s).1.error = none ∧
      (monitor_competitors today env s).1.updates_found = 0) ∧
    (∀ (env : TrendEnv) cur, env.searches = .ok cur →
      (∀ h ho, ∃ msg, env.patterns h ho cur = .error msg) →
      (analyze_market_trends today env s).1.error = none ∧
      (analyze_market_trends today env s).1.trends_identified = 0) ∧
    (∀ env : SynthesisEnv,
      (∀ f u t o, ∃ msg, env.synthesize f u t o = .error msg) →
      (∀ a, ∃ msg, env.identify a = .error msg) →
      (generate_strategic_analysis today env s).1.error = none ∧
      (generate_strategic_analysis today env s).1.new_opportunities = 0) := by
  refine ⟨fun e => ⟨rfl, rfl, rfl⟩, ?_, ?_, ?_⟩
  · intro env hsearch hanalyze
    obtain ⟨a, s', hloop⟩ :=
      competitorLoop_all_analyze_fail today env hsearch hanalyze
        env.competitors s []
    unfold monitor_competitors
    rw [hloop]
    exact ⟨rfl, rfl⟩
  · intro env cur hsearches hpatterns
    unfold analyze_market_trends
    rw [hsearches]
    obtain ⟨msg, hmsg⟩ := hpatterns (get_market_findings s 100 (some (today - 180)))
      (get_opportunities s none 50)
    simp [analyze_trend_patterns, hmsg]
  · intro env hsynth hident
    refine ⟨rfl, ?_⟩
    obtain ⟨m1, hm1⟩ := hsynth
      ((get_market_findings s 30 (some (today - 30))).take 15)
      ((get_competitor_updates s none 20).take 15)
      ((get_trends s (some 0.4) 15).take 10)
      ((get_opportunities s none 10).take 5)
    obtain ⟨m2, hm2⟩ := hident
      { executive_summary := str "Error in strategic synthesis"
        strategic_insights := []
        recommendations := [] }
    simp [generate_strategic_analysis, synthesize_intelligence,
      identify_opportunities, hm1, hm2]

/-- A one-competitor environment in which the search succeeds and the
per-competitor completion call throws (or returns unparseable JSON). -/
def failAnalyzeCompEnv : CompetitorEnv :=
  { competitors := [str "x"]
    search := fun _ => .ok []
    analyze := fun _ _ => .error (str "bad json")
    landscape := .ok {} }

/-- Counterexample to C5 as stated: in the Competitor stage a
completion-service failure does NOT set the error field of the returned
StageResult — the stage returns a success-shaped result with zero items. -/
theorem completion_error_not_reported_cex :
    (monitor_competitors 0 failAnalyzeCompEnv {}).1.error = none ∧
    (monitor_competitors 0 failAnalyzeCompEnv {}).1.updates_found = 0 :=
  ⟨rfl, rfl⟩

/-- A trend environment whose pattern-analysis completion call fails. -/
def failTrendEnv : TrendEnv :=
  { searches := .ok [], patterns := fun _ _ _ => .error (str "bad") }

/-- A synthesis environment whose two completion calls fail. -/
def failSynthEnv : SynthesisEnv :=
  { synthesize := fun _ _ _ _ => .error (str "bad")
    identify := fun _ => .error (str "bad") }

/-- Witness for C5 (amended): concrete completion failures in each stage —
the Market stage reports the error and zero items; the Competitor, Trend
and Synthesis stages report zero items with no error field. -/
theorem stage_error_field_policy_witness :
    (gather_market_intelligence 0 (.error (str "down")) {}).1.error
      = some (str "down") ∧
    (gather_market_intelligence 0 (.error (str "down")) {}).1.findings_count
      = 0 ∧
    (monitor_competitors 7 failAnalyzeCompEnv {}).1.error = none ∧
    (monitor_competitors 7 failAnalyzeCompEnv {}).1.updates_found = 0 ∧
    (analyze_market_trends 0 failTrendEnv {}).1.error = none ∧
    (analyze_market_trends 0 failTrendEnv {}).1.trends_identified = 0 ∧
    (generate_strategic_analysis 0 failSynthEnv {}).1.error = none ∧
    (generate_strategic_analysis 0 failSynthEnv {}).1.new_opportunities = 0 := by
  obtain ⟨hmkt, hcomp, htrend, hsynth⟩ := stage_error_field_policy 0 {}
  obtain ⟨hc1, hc2⟩ := hcomp failAnalyzeCompEnv (fun n => ⟨[], rfl⟩)
    (fun n r => ⟨str "bad json", rfl⟩)
  obtain ⟨ht1, ht2⟩ := htrend failTrendEnv [] rfl
    (fun h ho => ⟨str "bad", rfl⟩)
  obtain ⟨hs1, hs2⟩ := hsynth failSynthEnv (fun f u t o => ⟨str "bad", rfl⟩)
    (fun a => ⟨str "bad", rfl⟩)
  exact ⟨(hmkt (str "down")).1, (hmkt (str "down")).2.1, hc1, hc2, ht1, ht2,
    hs1, hs2⟩

/-! ## C1: what the Synthesis stage actually consumes -/

/-- C1 (amended): the Synthesis stage consumes a live read of the Result
Store, not the returned StageResults: generate_strategic_analysis takes no
stage outputs at all, and its StageResult is fully determined by the four
store queries it performs (recent findings, competitor updates, trends with
momentum at least 0.4, top opportunities) together with its own completion
responses. -/
theorem synthesis_determined_by_store_reads (today : Date)
    (env : SynthesisEnv) (s1 s2 : Store)
    (hf : get_market_findings s1 30 (some (today - 30))
        = get_market_findings s2 30 (some (today - 30)))
    (hu : get_competitor_updates s1 none 20 = get_competitor_updates s2 none 20)
    (ht : get_trends s1 (some 0.4) 15 = get_trends s2 (some 0.4) 15)
    (ho : get_opportunities s1 none 10 = get_opportunities s2 none 10) :
    (generate_strategic_analysis today env s1).1
      = (generate_strategic_analysis today env s2).1 := by
  unfold generate_strategic_analysis
  rw [hf, hu, ht, ho]

/-- Witness for C1 (amended): two stores that differ in a table the
synthesis queries never touch (analysis_runs) produce identical synthesis
results. -/
theorem synthesis_determined_by_store_reads_witness :
    (generate_strategic_analysis 0 benignSynthEnv {}).1
      = (generate_strategic_analysis 0 benignSynthEnv
          { analysis_runs := [{ run_date := 0
                                findings_count := 3
                                opportunities_identified := 0
                                key_insights := []
                                recommendations := []
                                status := str "completed" }] }).1 :=
  synthesis_determined_by_store_reads 0 benignSynthEnv _ _ rfl rfl rfl rfl

/-- A synthesis environment whose first completion response depends on the
opportunities the stage read from the store — as the source prompt does,
since the read rows are serialized into it. -/
def c1Synth : SynthesisEnv :=
  { synthesize := fun _ _ _ opps =>
      .ok { executive_summary :=
              if opps = [] then str "empty" else str "seeded" }
    identify := fun _ => .ok [] }

/-- The C1 daily environment: benign stages, store-sensitive synthesis. -/
def c1Env : DailyEnv := { benignDaily with synthEnv := c1Synth }

/-- A pre-existing opportunity row (created by an earlier run). -/
def seedOpp : Opportunity :=
  { title := str "o", description := [], market_gap := [], score := 0,
    priority := .low, potential_revenue := none,
    implementation_complexity := none, time_to_market := none }

/-- Counterexample to C1 as stated: two daily runs in which the Market,
Competitor and Trend stages return exactly the same three StageResults, yet
the Synthesis results differ — because Synthesis performs a live read of
the Result Store (which here contains a pre-existing opportunity row in one
run and not in the other), rather than consuming the three StageResults. -/
theorem synthesis_ignores_stage_results_cex :
    (run_daily_analysis c1Env {}).results.market_intelligence
      = (run_daily_analysis c1Env
          { opportunities := [seedOpp] }).results.market_intelligence ∧
    (run_daily_analysis c1Env {}).results.competitor_intelligence
      = (run_daily_analysis c1Env
          { opportunities := [seedOpp] }).results.competitor_intelligence ∧
    (run_daily_analysis c1Env {}).results.trend_analysis
      = (run_daily_analysis c1Env
          { opportunities := [seedOpp] }).results.trend_analysis ∧
    (run_daily_analysis c1Env {}).results.strategic_synthesis
      ≠ (run_daily_analysis c1Env
          { opportunities := [seedOpp] }).results.strategic_synthesis := by
  refine ⟨rfl, rfl, rfl, ?_⟩
  intro h
  have h1 : (run_daily_analysis c1Env {}).results.strategic_synthesis
      = some { executive_summary := str "empty", new_opportunities := 0 } := rfl
  have h2 : (run_daily_analysis c1Env
        { opportunities := [seedOpp] }).results.strategic_synthesis
      = some { executive_summary := str "seeded", new_opportunities := 0 } :=
    rfl
  rw [h1, h2] at h
  simp [str] at h

/-! ## C3: the Alert Evaluator against the reference definition -/

/-- When every search call succeeds, the competitor loop never takes its
error branch. -/
theorem competitorLoop_ok_of_search_ok (today : Date) (env : CompetitorEnv)
    (hsearch : ∀ n, ∃ r, env.search n = .ok r) :
    ∀ (cs : List Str) (s : Store) (ups : List CompetitorUpdate)
      (ans : List (Str × CompAnalysis)),
      ∃ u a s', competitorLoop today env cs s ups ans = .ok (u, a, s') := by
  intro cs
  induction cs with
  | nil =>
    intro s ups ans
    exact ⟨ups, ans, s, rfl⟩
  | cons c rest ih =>
    intro s ups ans
    unfold competitorLoop
    by_cases hname : c.strip = []
    · rw [if_pos hname]
      exact ih s ups ans
    · rw [if_neg hname]
      obtain ⟨r, hr⟩ := hsearch c.strip
      rw [hr]
      exact ih _ _ _

/-- Store-delta invariant of the competitor loop: the stored rows appended
to the competitor_updates table are exactly the rows accumulated in the
updates accumulator of the loop. -/
theorem competitorLoop_updates_delta (today : Date) (env : CompetitorEnv) :
    ∀ (cs : List Str) (s : Store) (ups : List CompetitorUpdate)
      (ans : List (Str × CompAnalysis)) (u : List CompetitorUpdate)
      (a : List (Str × CompAnalysis)) (s' : Store)
      (base : List CompetitorUpdate),
      s.competitor_updates = base ++ ups →
      competitorLoop today env cs s ups ans = .ok (u, a, s') →
      s'.competitor_updates = base ++ u := by
  intro cs
  induction cs with
  | nil =>
    intro s ups ans u a s' base hbase heq
    cases heq
    exact hbase
  | cons c rest ih =>
    intro s ups ans u a s' base hbase heq
    unfold competitorLoop at heq
    by_cases hname : c.strip = []
    · rw [if_pos hname] at heq
      exact ih s ups ans u a s' base hbase heq
    · rw [if_neg hname] at heq
      cases hs : env.search c.strip with
      | error e =>
        rw [hs] at heq
        cases heq
      | ok raw =>
        rw [hs] at heq
        refine ih _ _ _ u a s' base ?_ heq
        simp [hbase, List.append_assoc]

/-- The result of monitor_competitors when the loop completes. -/
theorem monitor_competitors_ok (today : Date) (env : CompetitorEnv) (s : Store)
    (u : List CompetitorUpdate) (a : List (Str × CompAnalysis)) (s' : Store)
    (hloop : competitorLoop today env env.competitors s [] []
      = .ok (u, a, s')) :
    monitor_competitors today env s =
      ({ error := none
         competitors_monitored := env.competitors.length
         updates_found := u.length
         landscape_summary := (analyze_competitive_landscape env).landscape_summary
         competitor_analyses := a
         critical_threats := identify_critical_threats u
         strategic_recommendations :=
           (analyze_competitive_landscape env).recommendations }, s') := by
  unfold monitor_competitors
  rw [hloop]

/-- The opportunities persisted by one synthesis run. -/
def synthStored (today : Date) (env : SynthesisEnv) (s : Store) :
    List Opportunity :=
  (identify_opportunities env (synthesize_intelligence env
    (get_market_findings s 30 (some (today - 30)))
    (get_competitor_updates s none 20)
    (get_trends s (some 0.4) 15)
    (get_opportunities s none 10))).filterMap mkOpportunity

/-- The synthesis stage appends exactly its validated new opportunities. -/
theorem generate_strategic_analysis_opps (today : Date) (env : SynthesisEnv)
    (s : Store) :
    (generate_strategic_analysis today env s).2.opportunities
      = s.opportunities ++ synthStored today env s := rfl

/-- The top_opportunities of the synthesis StageResult are the first five
stored opportunities. -/
theorem generate_strategic_analysis_top (today : Date) (env : SynthesisEnv)
    (s : Store) :
    (generate_strategic_analysis today env s).1.top_opportunities
      = (synthStored today env s).take 5 := rfl

/-- The crew-level evaluator agrees with the reference evaluator of the
spec, over the updates underlying the critical_threats list and whatever
opportunity list the synthesis result carries: the re-check of the threat
impact is a no-op because critical_threats is already so filtered. -/
theorem identify_critical_alerts_eq (r : RunResults)
    (c : CompetitorStageResult) (syn : SynthesisStageResult)
    (u : List CompetitorUpdate)
    (hc : r.competitor_intelligence = some c)
    (hs : r.strategic_synthesis = some syn)
    (hthreats : c.critical_threats = identify_critical_threats u) :
    identify_critical_alerts r = evaluateSpec u syn.top_opportunities := by
  simp only [identify_critical_alerts, evaluateSpec, hc, hs, hthreats,
    identify_critical_threats, List.filterMap_filterMap]
  congr 1
  apply List.filterMap_congr
  intro upd _
  by_cases hq : upd.impact_level = .high ∨ upd.impact_level = .critical
  · simp [hq]
  · simp [hq]

/-- C3 (amended): for every daily run in which no stage coroutine raises
and every competitor search succeeds, the alerts sent equal the reference
evaluator of the spec applied to the CompetitorUpdates created in this run
and to ONLY THE FIRST FIVE Opportunities stored in this run — the source
scans `top_opportunities = stored_opportunities[:5]`, so a qualifying
opportunity stored sixth or later never raises an alert. -/
theorem alerts_spec_on_first_five_opportunities (env : DailyEnv) (s : Store)
    (hm : env.marketRaise = none) (hc : env.compRaise = none)
    (ht : env.trendRaise = none)
    (hsearch : ∀ n, ∃ r, env.compEnv.search n = .ok r) :
    ∃ newUpdates newOpps,
      (run_daily_analysis env s).store.competitor_updates
        = s.competitor_updates ++ newUpdates ∧
      (run_daily_analysis env s).store.opportunities
        = s.opportunities ++ newOpps ∧
      (run_daily_analysis env s).sent_alerts
        = evaluateSpec newUpdates (newOpps.take 5) := by
  rw [run_daily_success env s hm hc ht]
  obtain ⟨u, a1, s2, hloop⟩ :=
    competitorLoop_ok_of_search_ok env.today env.compEnv hsearch
      env.compEnv.competitors
      (gather_market_intelligence env.today env.marketResp s).2 [] []
  have hmon := monitor_competitors_ok env.today env.compEnv
    (gather_market_intelligence env.today env.marketResp s).2 u a1 s2 hloop
  have hdelta : s2.competitor_updates
      = (gather_market_intelligence env.today
          env.marketResp s).2.competitor_updates ++ u :=
    competitorLoop_updates_delta env.today env.compEnv
      env.compEnv.competitors
      (gather_market_intelligence env.today env.marketResp s).2 [] [] u a1 s2
      (gather_market_intelligence env.today env.marketResp s).2.competitor_updates
      (by simp) hloop
  have hloopframe := competitorLoop_frame env.today env.compEnv
    env.compEnv.competitors
    (gather_market_intelligence env.today env.marketResp s).2 [] []
  rw [hloop] at hloopframe
  simp only [loopStore] at hloopframe
  have hmkt := gather_market_frame env.today env.marketResp s
  have htrd := analyze_market_trends_frame env.today env.trendEnv s2
  refine ⟨u, synthStored env.today env.synthEnv
    (analyze_market_trends env.today env.trendEnv s2).2, ?_, ?_, ?_⟩
  · show (generate_strategic_analysis env.today env.synthEnv
        (analyze_market_trends env.today env.trendEnv
          (monitor_competitors env.today env.compEnv
            (gather_market_intelligence env.today
              env.marketResp s).2).2).2).2.competitor_updates = _
    rw [hmon]
    show (generate_strategic_analysis env.today env.synthEnv
        (analyze_market_trends env.today env.trendEnv
          s2).2).2.competitor_updates = _
    rw [(generate_strategic_analysis_frame env.today env.synthEnv
      (analyze_market_trends env.today env.trendEnv s2).2).2.1,
      htrd.2.1, hdelta, hmkt.1]
  · show (generate_strategic_analysis env.today env.synthEnv
        (analyze_market_trends env.today env.trendEnv
          (monitor_competitors env.today env.compEnv
            (gather_market_intelligence env.today
              env.marketResp s).2).2).2).2.opportunities = _
    rw [hmon]
    show (generate_strategic_analysis env.today env.synthEnv
        (analyze_market_trends env.today env.trendEnv
          s2).2).2.opportunities = _
    rw [generate_strategic_analysis_opps, htrd.2.2.1, hloopframe.2.1,
      hmkt.2.1]
  · have halerts := identify_critical_alerts_eq
      (runDailyUnfolded env s).results
      (monitor_competitors env.today env.compEnv
        (gather_market_intelligence env.today env.marketResp s).2).1
      (generate_strategic_analysis env.today env.synthEnv
        (analyze_market_trends env.today env.trendEnv
          (monitor_competitors env.today env.compEnv
            (gather_market_intelligence env.today
              env.marketResp s).2).2).2).1
      u rfl rfl (by rw [hmon])
    have htop : (generate_strategic_analysis env.today env.synthEnv
        (analyze_market_trends env.today env.trendEnv
          (monitor_competitors env.today env.compEnv
            (gather_market_intelligence env.today
              env.marketResp s).2).2).2).1.top_opportunities
        = (synthStored env.today env.synthEnv
            (analyze_market_trends env.today env.trendEnv s2).2).take 5 := by
      rw [hmon]
      exact generate_strategic_analysis_top env.today env.synthEnv
        (analyze_market_trends env.today env.trendEnv s2).2
    exact halerts.trans (by rw [htop])

/-- Witness for C3 (amended): a fully benign run — no updates, no
opportunities — sends exactly the alerts of the reference evaluator on its
(empty) run delta. -/
theorem alerts_spec_on_first_five_opportunities_witness :
    (run_daily_analysis benignDaily {}).sent_alerts = evaluateSpec [] [] := by
  obtain ⟨u, o, hu, ho, ha⟩ := alerts_spec_on_first_five_opportunities
    benignDaily {} rfl rfl rfl (fun n => ⟨[], rfl⟩)
  have h1 : (run_daily_analysis benignDaily {}).store.competitor_updates
      = ([] : List CompetitorUpdate) := rfl
  have h2 : (run_daily_analysis benignDaily {}).store.opportunities
      = ([] : List Opportunity) := rfl
  rw [h1] at hu
  rw [h2] at ho
  simp only [List.nil_append] at hu ho
  rw [← hu, ← ho] at ha
  exact ha

/-- A low-scoring opportunity item of the completion response. -/
def oppLow : OppItem := { title := str "l", score := 0, priority := str "low" }

/-- A qualifying opportunity item: score 1 (above 0.9), priority high. -/
def oppHigh : OppItem :=
  { title := str "h", score := 1, priority := str "high" }

/-- A synthesis environment identifying six opportunities, the qualifying
one last. -/
def c3Synth : SynthesisEnv :=
  { synthesize := fun _ _ _ _ => .ok {}
    identify := fun _ => .ok [oppLow, oppLow, oppLow, oppLow, oppLow, oppHigh] }

/-- The C3 daily environment. -/
def c3Env : DailyEnv := { benignDaily with synthEnv := c3Synth }

/-- The stored row of the low item. -/
def lowOppStored : Opportunity :=
  { title := (str "l").take 255, description := [], market_gap := []
    score := 0, priority := .low, potential_revenue := none
    implementation_complexity := none, time_to_market := none }

/-- The stored row of the qualifying item. -/
def highOppStored : Opportunity :=
  { title := (str "h").take 255, description := [], market_gap := []
    score := 1, priority := .high, potential_revenue := none
    implementation_complexity := none, time_to_market := none }

/-- Counterexample to C3 as stated: a run stores six opportunities, the
sixth of which has score above 0.9 and priority high, yet the evaluator
emits NO alert — it only scans the first five stored opportunities
(`top_opportunities`), so not every qualifying Opportunity of the run fires
its rule. -/
theorem alert_evaluator_misses_sixth_opportunity_cex :
    (run_daily_analysis c3Env {}).store.opportunities
      = [lowOppStored, lowOppStored, lowOppStored, lowOppStored, lowOppStored,
         highOppStored] ∧
    (0.9 < highOppStored.score ∧ highOppStored.priority = .high) ∧
    (run_daily_analysis c3Env {}).sent_alerts = [] := by
  refine ⟨rfl, ⟨by norm_num [highOppStored], rfl⟩, ?_⟩
  have h1 : (run_daily_analysis c3Env {}).sent_alerts
      = identify_critical_alerts (run_daily_analysis c3Env {}).results := rfl
  have h2 : (run_daily_analysis c3Env {}).results.competitor_intelligence
      = some { error := none
               competitors_monitored := 0
               updates_found := 0
               landscape_summary := []
               competitor_analyses := []
               critical_threats := []
               strategic_recommendations := [] } := rfl
  have h3 : (run_daily_analysis c3Env {}).results.strategic_synthesis
      = some { error := none
               executive_summary := []
               strategic_insights := []
               new_opportunities := 6
               top_opportunities := [lowOppStored, lowOppStored, lowOppStored,
                 lowOppStored, lowOppStored]
               strategic_recommendations := []
               competitive_positioning := []
               risk_assessment := []
               action_plan := [] } := rfl
  rw [h1, identify_critical_alerts_eq _ _ _ [] h2 h3 rfl]
  simp [evaluateSpec, lowOppStored]

/-- Witness for C8 (amended): the usage path and a weekly run both exit 0
concretely. -/
theorem cli_always_exits_zero_witness :
    (cliMain [str "weekly"]
      { daily := benignDaily, weekly := benignWeekly, quick := benignQuick }
      {}).1 = 0 :=
  cli_always_exits_zero [str "weekly"]
    { daily := benignDaily, weekly := benignWeekly, quick := benignQuick } {}

/-- Witness for C10: a concrete weekly summary over a benign environment
leaves the empty store exactly empty. -/
theorem weekly_summary_never_writes_store_witness :
    (run_weekly_summary benignWeekly {}).2 = ({} : Store) :=
  weekly_summary_never_writes_store benignWeekly {}
